import Mathlib

/-!
Verification of the IoT diagnostic toolkit: a shallow embedding of the
anomaly-scoring procedure of `src/app.py` (class `AnomalyChecker`) and of
the serial log collector loop of `src/Data/FetchData.py`, with theorems
about the behaviour of both.

Conventions of the embedding:
* Python floats are modelled as rationals (`ℚ`); every value handled by the
  scoring path is finite.
* The pretrained scaler and model are opaque external collaborators: the
  scaler is any function on one 4-feature row (the code only ever applies
  `scaler.transform` to a single-row matrix), the model any function on a
  `TIME_STEPS × 4` sequence (the leading batch dimension of size 1 of
  `reshape(1, TIME_STEPS, 4)` is dropped).
* Each GUI text field is modelled by the result of Python `float()` on its
  string value: `some q` when the text parses, `none` when `float` raises
  `ValueError`.
* Widget mutations are modelled by explicit state passing; the numeric
  labels store the number they render (`lbl_score` the severity percent,
  `lbl_loss` the raw reconstruction error).
* A `Trace` records which effects of one `analyze_inputs` call actually
  executed on this attempt: a `float()` conversion, `scaler.transform`,
  `model.predict`.
-/

namespace IoTDiag

/-- Configuration constant `TIME_STEPS = 30` (src/app.py line 12). -/
def TIME_STEPS : ℕ := 30

/-- Configuration constant `DEFAULT_THRESHOLD = 0.15` (src/app.py line 13). -/
def DEFAULT_THRESHOLD : ℚ := 15 / 100

/-- One sensor reading row: 4 features (temperature, humidity, pressure, soil). -/
abbrev Row : Type := Fin 4 → ℚ

/-- A `TIME_STEPS × 4` sequence, the model input/output shape. -/
abbrev SeqT : Type := Fin TIME_STEPS → Row

/-- The loaded scaler, opaque: `scaler.transform` on a single row. -/
abbrev Scaler : Type := Row → Row

/-- The loaded reconstruction model, opaque: `model.predict` on one sequence. -/
abbrev ReconstructionModel : Type := SeqT → SeqT

/-- `np.repeat(row, n, axis=0)`: the row repeated at every one of `n` positions. -/
def np_repeat {n : ℕ} (v : Row) : Fin n → Row := fun _ => v

/-- Elementwise difference of two sequences (numpy broadcasting of `-`). -/
def np_sub (a b : SeqT) : SeqT := fun i j => a i j - b i j

/-- Elementwise absolute value (`np.abs`). -/
def np_abs (a : SeqT) : SeqT := fun i j => |a i j|

/-- `np.mean` over the whole array: sum of all `TIME_STEPS * 4` entries divided
by the element count. -/
def np_mean (a : SeqT) : ℚ := (∑ i, ∑ j, a i j) / ((TIME_STEPS : ℚ) * 4)

/-- Widget colours used by `analyze_inputs` and `load_assets`. -/
inductive Color : Type
  | red
  | green
  | blue
  | grey
  | unset
deriving DecidableEq

/-- The widgets `analyze_inputs` can mutate.  String labels hold their text;
`lbl_score` and `lbl_loss` hold the number their text renders. -/
structure UI : Type where
  lbl_result : String
  lbl_result_color : Color
  lbl_score : ℚ
  progress_value : ℚ
  progress_color : Color
  lbl_loss : ℚ
  result_card_visible : Bool

/-- Which effects one scoring attempt executed. -/
structure Trace : Type where
  floatCalled : Bool
  scalerCalled : Bool
  modelCalled : Bool

/-- The mutable state of an `AnomalyChecker` object: the two loaded assets,
the status line set by `load_assets`, the four text fields (as the result of
`float()` on their text) and the result widgets. -/
structure AppState : Type where
  model : Option ReconstructionModel
  scaler : Option Scaler
  status : String
  status_color : Color
  txt_temp : Option ℚ
  txt_hum : Option ℚ
  txt_press : Option ℚ
  txt_soil : Option ℚ
  ui : UI

/-- The `except ValueError` handler of `analyze_inputs` (src/app.py lines
147-151): only the status text, its colour and the card visibility change.
At this point at least one `float()` ran and raised, and neither
`scaler.transform` nor `model.predict` was reached. -/
def invalidInputUI (ui : UI) : UI × Trace :=
  ({ ui with lbl_result := "Invalid Input: Please enter numbers only.",
             lbl_result_color := Color.red,
             result_card_visible := true },
   ⟨true, false, false⟩)

/-- Body of `AnomalyChecker.analyze_inputs` (src/app.py lines 92-151) acting
on the widgets, given the object's fields.  The branches mirror the source:
the `not self.model or not self.scaler` guard (a loaded Keras model and a
loaded scaler are truthy, `None` is falsy), the four sequential `float()`
conversions whose first failure jumps to the `ValueError` handler, then
scaling, sequence construction, prediction, the mean absolute error, and the
strict threshold comparison. -/
def analyzeUI (model : Option ReconstructionModel) (scaler : Option Scaler)
    (txt_temp txt_hum txt_press txt_soil : Option ℚ) (ui : UI) : UI × Trace :=
  match model, scaler with
  | some model, some scaler =>
    -- 1. Get Values: val_temp = float(self.txt_temp.value), ...
    match txt_temp with
    | none => invalidInputUI ui
    | some val_temp =>
      match txt_hum with
      | none => invalidInputUI ui
      | some val_hum =>
        match txt_press with
        | none => invalidInputUI ui
        | some val_press =>
          match txt_soil with
          | none => invalidInputUI ui
          | some val_soil =>
            -- 2. Preprocess: input_vector = np.array([[...]]); scaled = scaler.transform(...)
            let input_vector : Row := ![val_temp, val_hum, val_press, val_soil]
            let scaled_vector : Row := scaler input_vector
            -- 3. Create Sequence: np.repeat(scaled_vector, TIME_STEPS, axis=0).reshape(1, TIME_STEPS, 4)
            let input_batch : SeqT := np_repeat scaled_vector
            -- 4. Predict: reconstruction = self.model.predict(input_batch, verbose=0)
            let reconstruction : SeqT := model input_batch
            -- 5. Calculate Error: mae_loss = np.mean(np.abs(reconstruction - input_batch))
            let mae_loss : ℚ := np_mean (np_abs (np_sub reconstruction input_batch))
            -- 6. Determine Status: score_percent = mae_loss / DEFAULT_THRESHOLD
            let score_percent : ℚ := mae_loss / DEFAULT_THRESHOLD
            let ui1 : UI := { ui with lbl_loss := mae_loss, result_card_visible := true }
            if mae_loss > DEFAULT_THRESHOLD then
              ({ ui1 with lbl_result := "ANOMALY DETECTED",
                          lbl_result_color := Color.red,
                          lbl_score := score_percent * 100,
                          progress_color := Color.red,
                          progress_value := min (score_percent * (1 / 2)) 1 },
               ⟨true, true, true⟩)
            else
              ({ ui1 with lbl_result := "STATUS NORMAL",
                          lbl_result_color := Color.green,
                          lbl_score := score_percent * 100,
                          progress_color := Color.green,
                          progress_value := score_percent },
               ⟨true, true, true⟩)
  | _, _ =>
    -- if not self.model or not self.scaler: early return, nothing numeric runs
    ({ ui with lbl_result := "Model not loaded!",
               lbl_result_color := Color.red,
               result_card_visible := true },
     ⟨false, false, false⟩)

/-- One call of `AnomalyChecker.analyze_inputs`: the method reads
`self.model`, `self.scaler` and the four text fields, and mutates only the
result widgets. -/
def analyze_inputs (st : AppState) : AppState × Trace :=
  ({ st with ui := (analyzeUI st.model st.scaler st.txt_temp st.txt_hum
                      st.txt_press st.txt_soil st.ui).1 },
   (analyzeUI st.model st.scaler st.txt_temp st.txt_hum
      st.txt_press st.txt_soil st.ui).2)

/-- `AnomalyChecker.load_assets` (src/app.py lines 22-34).  `filesExist`
models `os.path.exists(MODEL_PATH) and os.path.exists(SCALER_PATH)`; the two
external loaders are modelled by their outcome, `none` meaning the call
raised (the raised branch leaves the already-assigned fields as they are and
sets the error status; the source appends `str(e)` to the message). -/
def load_assets (filesExist : Bool) (loadModel : Option ReconstructionModel)
    (loadScaler : Option Scaler) (st : AppState) : AppState :=
  let st1 : AppState := { st with status := "Ready", status_color := Color.green }
  if filesExist then
    match loadModel with
    | none => { st1 with status := "Error loading files: ", status_color := Color.red }
    | some m =>
      match loadScaler with
      | none => { st1 with model := some m,
                           status := "Error loading files: ", status_color := Color.red }
      | some sc => { st1 with model := some m, scaler := some sc }
  else
    { st1 with status := "Error: Model/Scaler files missing!", status_color := Color.red }

/-- The raw reconstruction error the scoring path computes for one parsed
reading, as a function of the loaded assets and the four values. -/
def mae_of (m : ReconstructionModel) (sc : Scaler) (t h p s : ℚ) : ℚ :=
  np_mean (np_abs (np_sub (m (np_repeat (sc ![t, h, p, s])))
    (np_repeat (sc ![t, h, p, s]))))

/-- An affine per-feature standardization transform, the documented shape of
the externally fitted scaler (e.g. mean/variance standardization). -/
structure AffineScaler : Type where
  scale : Row
  shift : Row

/-- The affine scaler applied to one row. -/
def AffineScaler.transformRow (S : AffineScaler) (x : Row) : Row :=
  fun j => S.scale j * x j + S.shift j

/-- `scaler.transform` on an `n × 4` matrix: the row transform applied to
each row independently. -/
def AffineScaler.transform {n : ℕ} (S : AffineScaler) (M : Fin n → Row) :
    Fin n → Row :=
  fun i => S.transformRow (M i)

/-! Concrete fixtures used by the witnesses: an identity model and scaler
(every reading reconstructs exactly, error 0) and the state right after
start-up with the default field texts 25.0 / 50.0 / 1013.0 / 800.0. -/

/-- A model that reconstructs its input exactly. -/
def idModel : ReconstructionModel := fun q => q

/-- A scaler that leaves the reading unchanged. -/
def idScaler : Scaler := fun r => r

/-- A model whose reconstruction is off by exactly `DEFAULT_THRESHOLD` in
every entry, so the mean absolute error sits exactly on the threshold. -/
def boundaryModel : ReconstructionModel := fun q i j => q i j + DEFAULT_THRESHOLD

/-- The result widgets as `build` creates them. -/
def ui0 : UI :=
  { lbl_result := "Waiting for input...", lbl_result_color := Color.unset,
    lbl_score := 0, progress_value := 0, progress_color := Color.blue,
    lbl_loss := 0, result_card_visible := false }

/-- A state with both assets loaded and the default field values parsed. -/
def testState : AppState :=
  { model := some idModel, scaler := some idScaler,
    status := "Ready", status_color := Color.green,
    txt_temp := some 25, txt_hum := some 50,
    txt_press := some 1013, txt_soil := some 800, ui := ui0 }

/-- `testState` with the boundary model, so the scored error equals the threshold. -/
def boundaryState : AppState := { testState with model := some boundaryModel }

/-- `testState` after typing a non-numeric temperature. -/
def badInputState : AppState := { testState with txt_temp := none }

/-- The object state right after `__init__` assigns `self.model = None` and
`self.scaler = None`, before `load_assets` runs. -/
def emptyState : AppState :=
  { model := none, scaler := none, status := "", status_color := Color.unset,
    txt_temp := some 25, txt_hum := some 50,
    txt_press := some 1013, txt_soil := some 800, ui := ui0 }

/-! Embedding of the serial log collector loop body, `src/Data/FetchData.py`.
Lines are modelled as `List Char` (the `utf-8` decode of the bytes read by
`Serial.readline()`); the timestamp produced by
`datetime.datetime.now().strftime("%Y-%m-%d %H:%M:%S")` is a parameter, since
it comes from the clock.  `str.strip` and `str.replace` are implemented
faithfully below. -/

/-- Python `str.isspace`-style test for the characters `str.strip` removes. -/
def pyIsSpace (c : Char) : Bool :=
  c == ' ' || c == '\t' || c == '\n' || c == '\r' || c == '\x0b' || c == '\x0c'

/-- Python `str.strip()`: whitespace removed from both ends. -/
def pyStrip (l : List Char) : List Char :=
  ((l.dropWhile pyIsSpace).reverse.dropWhile pyIsSpace).reverse

/-- `startswith` on character lists. -/
def isPrefixOfL : List Char → List Char → Bool
  | [], _ => true
  | _ :: _, [] => false
  | p :: ps, c :: cs => p == c && isPrefixOfL ps cs

/-- Worker for `str.replace`: scan left to right, replacing each
non-overlapping occurrence of `pat` by `rep`.  The fuel argument (one unit
per examined position, always at least the list length) keeps the recursion
structural. -/
def replaceAux (pat rep : List Char) : ℕ → List Char → List Char
  | _, [] => []
  | 0, l => l
  | fuel + 1, c :: cs =>
    if isPrefixOfL pat (c :: cs) then
      rep ++ replaceAux pat rep fuel (cs.drop (pat.length - 1))
    else
      c :: replaceAux pat rep fuel cs

/-- Python `s.replace(pat, rep)` for a nonempty pattern. -/
def replaceAll (pat rep l : List Char) : List Char :=
  replaceAux pat rep l.length l

/-- The marker the collector filters on: `data.startswith(b"[Logs] ")`. -/
def MARKER : List Char := ['[', 'L', 'o', 'g', 's', ']', ' ']

/-- The token removed by `newdata.replace("[Logs]", "")`. -/
def LOGS : List Char := ['[', 'L', 'o', 'g', 's', ']']

/-- One iteration of the `while True` loop of FetchData.py on one line read
from the serial port: `some record` when the line starts with the marker and
`record` (without the trailing newline added by `file.write`) is appended to
`Data/logs.csv`; `none` when the line is skipped. -/
def processLine (timestamp data : List Char) : Option (List Char) :=
  if isPrefixOfL MARKER data then
    -- newdata = data.decode('utf-8').strip()
    let newdata := pyStrip data
    -- newdata = timestamp + "," + newdata
    let newdata := timestamp ++ ',' :: newdata
    -- newdata = newdata.replace(" ", "")
    let newdata := replaceAll [' '] [] newdata
    -- newdata = newdata.replace("[Logs]", "")
    let newdata := replaceAll LOGS [] newdata
    some newdata
  else
    none

/-- The record format as claim C8 states it: the generated timestamp, a
comma, and the line's payload with the marker token removed and whitespace
stripped. -/
def claimedRecordC8 (timestamp data : List Char) : List Char :=
  timestamp ++ ',' :: pyStrip (data.drop MARKER.length)

/-! Helper lemmas about one scoring call. -/

/-- The result widgets of a call are exactly those computed by `analyzeUI`
from the object's fields. -/
lemma analyze_ui_eq (st : AppState) :
    (analyze_inputs st).1.ui =
      (analyzeUI st.model st.scaler st.txt_temp st.txt_hum
        st.txt_press st.txt_soil st.ui).1 := rfl

/-- The trace of a call is exactly that computed by `analyzeUI`. -/
lemma analyze_trace_eq (st : AppState) :
    (analyze_inputs st).2 =
      (analyzeUI st.model st.scaler st.txt_temp st.txt_hum
        st.txt_press st.txt_soil st.ui).2 := rfl

/-- Closed form of `analyzeUI` when both assets are loaded and all four
fields parse. -/
lemma analyzeUI_loaded (m : ReconstructionModel) (sc : Scaler) (t h p s : ℚ)
    (ui : UI) :
    analyzeUI (some m) (some sc) (some t) (some h) (some p) (some s) ui =
      (if mae_of m sc t h p s > DEFAULT_THRESHOLD then
        ({ ui with lbl_loss := mae_of m sc t h p s, result_card_visible := true,
                   lbl_result := "ANOMALY DETECTED", lbl_result_color := Color.red,
                   lbl_score := mae_of m sc t h p s / DEFAULT_THRESHOLD * 100,
                   progress_color := Color.red,
                   progress_value :=
                     min (mae_of m sc t h p s / DEFAULT_THRESHOLD * (1 / 2)) 1 },
         ⟨true, true, true⟩)
      else
        ({ ui with lbl_loss := mae_of m sc t h p s, result_card_visible := true,
                   lbl_result := "STATUS NORMAL", lbl_result_color := Color.green,
                   lbl_score := mae_of m sc t h p s / DEFAULT_THRESHOLD * 100,
                   progress_color := Color.green,
                   progress_value := mae_of m sc t h p s / DEFAULT_THRESHOLD },
         ⟨true, true, true⟩)) := rfl

/-- Raw error written to the error label on a successful analysis. -/
lemma analyzeUI_lbl_loss (m : ReconstructionModel) (sc : Scaler) (t h p s : ℚ)
    (ui : UI) :
    (analyzeUI (some m) (some sc) (some t) (some h) (some p) (some s) ui).1.lbl_loss =
      mae_of m sc t h p s := by
  rw [analyzeUI_loaded]; split <;> rfl

/-- Severity percentage written to the score label on a successful analysis. -/
lemma analyzeUI_lbl_score (m : ReconstructionModel) (sc : Scaler) (t h p s : ℚ)
    (ui : UI) :
    (analyzeUI (some m) (some sc) (some t) (some h) (some p) (some s) ui).1.lbl_score =
      mae_of m sc t h p s / DEFAULT_THRESHOLD * 100 := by
  rw [analyzeUI_loaded]; split <;> rfl

/-- Status text in the anomaly branch. -/
lemma analyzeUI_result_pos (m : ReconstructionModel) (sc : Scaler) (t h p s : ℚ)
    (ui : UI) (hgt : mae_of m sc t h p s > DEFAULT_THRESHOLD) :
    (analyzeUI (some m) (some sc) (some t) (some h) (some p) (some s) ui).1.lbl_result =
      "ANOMALY DETECTED" := by
  rw [analyzeUI_loaded, if_pos hgt]

/-- Status text in the normal branch. -/
lemma analyzeUI_result_neg (m : ReconstructionModel) (sc : Scaler) (t h p s : ℚ)
    (ui : UI) (hgt : ¬ mae_of m sc t h p s > DEFAULT_THRESHOLD) :
    (analyzeUI (some m) (some sc) (some t) (some h) (some p) (some s) ui).1.lbl_result =
      "STATUS NORMAL" := by
  rw [analyzeUI_loaded, if_neg hgt]

/-- Progress-bar value in the anomaly branch. -/
lemma analyzeUI_progress_pos (m : ReconstructionModel) (sc : Scaler) (t h p s : ℚ)
    (ui : UI) (hgt : mae_of m sc t h p s > DEFAULT_THRESHOLD) :
    (analyzeUI (some m) (some sc) (some t) (some h) (some p) (some s) ui).1.progress_value =
      min (mae_of m sc t h p s / DEFAULT_THRESHOLD * (1 / 2)) 1 := by
  rw [analyzeUI_loaded, if_pos hgt]

/-- Progress-bar value in the normal branch. -/
lemma analyzeUI_progress_neg (m : ReconstructionModel) (sc : Scaler) (t h p s : ℚ)
    (ui : UI) (hgt : ¬ mae_of m sc t h p s > DEFAULT_THRESHOLD) :
    (analyzeUI (some m) (some sc) (some t) (some h) (some p) (some s) ui).1.progress_value =
      mae_of m sc t h p s / DEFAULT_THRESHOLD := by
  rw [analyzeUI_loaded, if_neg hgt]

/-- When the model or the scaler is not loaded, the scoring path is the early
return: only the status message changes and nothing executes. -/
lemma analyzeUI_missing (model : Option ReconstructionModel) (scaler : Option Scaler)
    (h : model = none ∨ scaler = none) (a b c d : Option ℚ) (ui : UI) :
    analyzeUI model scaler a b c d ui =
      ({ ui with lbl_result := "Model not loaded!",
                 lbl_result_color := Color.red,
                 result_card_visible := true },
       ⟨false, false, false⟩) := by
  rcases h with h | h <;> subst h
  · cases scaler <;> rfl
  · cases model <;> rfl

/-- When both assets are loaded but some field fails to parse, the call takes
the `ValueError` handler. -/
lemma analyzeUI_invalid (m : ReconstructionModel) (sc : Scaler)
    (a b c d : Option ℚ) (h : a = none ∨ b = none ∨ c = none ∨ d = none)
    (ui : UI) :
    analyzeUI (some m) (some sc) a b c d ui = invalidInputUI ui := by
  rcases h with h | h | h | h <;> subst h
  · rfl
  · cases a <;> rfl
  · cases a <;> cases b <;> rfl
  · cases a <;> cases b <;> cases c <;> rfl

/-- The mean absolute error is nonnegative. -/
lemma np_mean_abs_nonneg (a : SeqT) : 0 ≤ np_mean (np_abs a) := by
  unfold np_mean np_abs
  apply div_nonneg
  · exact Finset.sum_nonneg fun i _ => Finset.sum_nonneg fun j _ => abs_nonneg _
  · positivity

/-- The scored raw error is nonnegative. -/
lemma mae_of_nonneg (m : ReconstructionModel) (sc : Scaler) (t h p s : ℚ) :
    0 ≤ mae_of m sc t h p s :=
  np_mean_abs_nonneg _

/-- The threshold constant is positive. -/
lemma threshold_pos : (0 : ℚ) < DEFAULT_THRESHOLD := by
  norm_num [DEFAULT_THRESHOLD]

/-! Claim theorems. -/

/-- C1: for every reading whose four fields parse (and with the model and
scaler loaded), the scoring call produces a raw reconstruction error that is
nonnegative and a displayed severity percentage equal to
`raw_error / DEFAULT_THRESHOLD * 100`, the threshold being the fixed
constant 0.15. -/
theorem C1_raw_error_nonneg_severity (st : AppState) (m : ReconstructionModel)
    (sc : Scaler) (t h p s : ℚ) (hm : st.model = some m) (hsc : st.scaler = some sc)
    (ht : st.txt_temp = some t) (hh : st.txt_hum = some h)
    (hp : st.txt_press = some p) (hs : st.txt_soil = some s) :
    0 ≤ (analyze_inputs st).1.ui.lbl_loss ∧
      (analyze_inputs st).1.ui.lbl_score =
        (analyze_inputs st).1.ui.lbl_loss / DEFAULT_THRESHOLD * 100 ∧
      DEFAULT_THRESHOLD = 15 / 100 := by
  rw [analyze_ui_eq, hm, hsc, ht, hh, hp, hs, analyzeUI_lbl_loss,
    analyzeUI_lbl_score]
  exact ⟨mae_of_nonneg m sc t h p s, rfl, rfl⟩

/-- Witness for C1 at the loaded test state with reading (25, 50, 1013, 800). -/
theorem C1_raw_error_nonneg_severity_w :
    testState.model = some idModel ∧ testState.scaler = some idScaler ∧
      testState.txt_temp = some 25 ∧ testState.txt_hum = some 50 ∧
      testState.txt_press = some 1013 ∧ testState.txt_soil = some 800 ∧
      (0 ≤ (analyze_inputs testState).1.ui.lbl_loss ∧
        (analyze_inputs testState).1.ui.lbl_score =
          (analyze_inputs testState).1.ui.lbl_loss / DEFAULT_THRESHOLD * 100 ∧
        DEFAULT_THRESHOLD = 15 / 100) :=
  ⟨rfl, rfl, rfl, rfl, rfl, rfl,
    C1_raw_error_nonneg_severity testState idModel idScaler 25 50 1013 800
      rfl rfl rfl rfl rfl rfl⟩

/-- C2: on every valid numeric input the classification comparison is strict:
the reading is reported as an anomaly exactly when the raw error exceeds the
threshold, and a raw error exactly equal to the threshold is reported
normal. -/
theorem C2_strict_threshold (st : AppState) (m : ReconstructionModel)
    (sc : Scaler) (t h p s : ℚ) (hm : st.model = some m) (hsc : st.scaler = some sc)
    (ht : st.txt_temp = some t) (hh : st.txt_hum = some h)
    (hp : st.txt_press = some p) (hs : st.txt_soil = some s) :
    ((analyze_inputs st).1.ui.lbl_result = "ANOMALY DETECTED" ↔
      (analyze_inputs st).1.ui.lbl_loss > DEFAULT_THRESHOLD) ∧
    ((analyze_inputs st).1.ui.lbl_loss = DEFAULT_THRESHOLD →
      (analyze_inputs st).1.ui.lbl_result = "STATUS NORMAL") := by
  rw [analyze_ui_eq, hm, hsc, ht, hh, hp, hs, analyzeUI_lbl_loss]
  by_cases hgt : mae_of m sc t h p s > DEFAULT_THRESHOLD
  · refine ⟨iff_of_true (analyzeUI_result_pos m sc t h p s st.ui hgt) hgt, ?_⟩
    intro hEq
    exact absurd (hEq ▸ hgt) (lt_irrefl _)
  · refine ⟨?_, fun _ => analyzeUI_result_neg m sc t h p s st.ui hgt⟩
    rw [analyzeUI_result_neg m sc t h p s st.ui hgt]
    exact iff_of_false (by decide) hgt

/-- Witness for C2 at a state whose model misses by exactly the threshold, so
the boundary case `raw_error = DEFAULT_THRESHOLD` is exercised. -/
theorem C2_strict_threshold_w :
    boundaryState.model = some boundaryModel ∧
      boundaryState.scaler = some idScaler ∧
      boundaryState.txt_temp = some 25 ∧ boundaryState.txt_hum = some 50 ∧
      boundaryState.txt_press = some 1013 ∧ boundaryState.txt_soil = some 800 ∧
      (((analyze_inputs boundaryState).1.ui.lbl_result = "ANOMALY DETECTED" ↔
          (analyze_inputs boundaryState).1.ui.lbl_loss > DEFAULT_THRESHOLD) ∧
        ((analyze_inputs boundaryState).1.ui.lbl_loss = DEFAULT_THRESHOLD →
          (analyze_inputs boundaryState).1.ui.lbl_result = "STATUS NORMAL")) :=
  ⟨rfl, rfl, rfl, rfl, rfl, rfl,
    C2_strict_threshold boundaryState boundaryModel idScaler 25 50 1013 800
      rfl rfl rfl rfl rfl rfl⟩

/-- C3: on every valid numeric 4-tuple the scoring path normalizes the single
reading, repeats the normalized row across all `TIME_STEPS = 30` positions of
the model input, and reports as raw error the mean of the absolute
elementwise differences between the model input and its reconstruction,
averaged over all `TIME_STEPS * 4` entries. -/
theorem C3_sequence_construction_and_mae (st : AppState)
    (m : ReconstructionModel) (sc : Scaler) (t h p s : ℚ)
    (hm : st.model = some m) (hsc : st.scaler = some sc)
    (ht : st.txt_temp = some t) (hh : st.txt_hum = some h)
    (hp : st.txt_press = some p) (hs : st.txt_soil = some s) :
    (analyze_inputs st).1.ui.lbl_loss =
      (∑ i : Fin TIME_STEPS, ∑ j : Fin 4,
        |m (np_repeat (sc ![t, h, p, s])) i j -
          (np_repeat (sc ![t, h, p, s]) : SeqT) i j|) / ((TIME_STEPS : ℚ) * 4) ∧
    (∀ i : Fin TIME_STEPS, (np_repeat (sc ![t, h, p, s]) : SeqT) i = sc ![t, h, p, s]) ∧
    TIME_STEPS = 30 := by
  refine ⟨?_, fun i => rfl, rfl⟩
  rw [analyze_ui_eq, hm, hsc, ht, hh, hp, hs, analyzeUI_lbl_loss]
  rfl

/-- Witness for C3 at the loaded test state. -/
theorem C3_sequence_construction_and_mae_w :
    testState.model = some idModel ∧ testState.scaler = some idScaler ∧
      testState.txt_temp = some 25 ∧ testState.txt_hum = some 50 ∧
      testState.txt_press = some 1013 ∧ testState.txt_soil = some 800 ∧
      ((analyze_inputs testState).1.ui.lbl_loss =
        (∑ i : Fin TIME_STEPS, ∑ j : Fin 4,
          |idModel (np_repeat (idScaler ![25, 50, 1013, 800])) i j -
            (np_repeat (idScaler ![25, 50, 1013, 800]) : SeqT) i j|) /
          ((TIME_STEPS : ℚ) * 4) ∧
       (∀ i : Fin TIME_STEPS,
          (np_repeat (idScaler ![25, 50, 1013, 800]) : SeqT) i =
            idScaler ![25, 50, 1013, 800]) ∧
       TIME_STEPS = 30) :=
  ⟨rfl, rfl, rfl, rfl, rfl, rfl,
    C3_sequence_construction_and_mae testState idModel idScaler 25 50 1013 800
      rfl rfl rfl rfl rfl rfl⟩

/-- C4: with the assets loaded, whenever at least one of the four fields is
not parseable as a number, the attempt lands in the `ValueError` handler: a
user-facing message is shown instead of a crash, and the reconstruction model
is never invoked on that attempt (nor is the scaler). -/
theorem C4_invalid_input_no_model_call (st : AppState)
    (m : ReconstructionModel) (sc : Scaler)
    (hm : st.model = some m) (hsc : st.scaler = some sc)
    (hbad : st.txt_temp = none ∨ st.txt_hum = none ∨
      st.txt_press = none ∨ st.txt_soil = none) :
    (analyze_inputs st).2.modelCalled = false ∧
      (analyze_inputs st).2.scalerCalled = false ∧
      (analyze_inputs st).1.ui.lbl_result =
        "Invalid Input: Please enter numbers only." ∧
      (analyze_inputs st).1.ui.result_card_visible = true := by
  have hinv := analyzeUI_invalid m sc st.txt_temp st.txt_hum st.txt_press
    st.txt_soil hbad st.ui
  rw [analyze_trace_eq, analyze_ui_eq, hm, hsc, hinv]
  exact ⟨rfl, rfl, rfl, rfl⟩

/-- Witness for C4 at the state with a non-numeric temperature field. -/
theorem C4_invalid_input_no_model_call_w :
    badInputState.model = some idModel ∧ badInputState.scaler = some idScaler ∧
      (badInputState.txt_temp = none ∨ badInputState.txt_hum = none ∨
        badInputState.txt_press = none ∨ badInputState.txt_soil = none) ∧
      ((analyze_inputs badInputState).2.modelCalled = false ∧
        (analyze_inputs badInputState).2.scalerCalled = false ∧
        (analyze_inputs badInputState).1.ui.lbl_result =
          "Invalid Input: Please enter numbers only." ∧
        (analyze_inputs badInputState).1.ui.result_card_visible = true) :=
  ⟨rfl, rfl, Or.inl rfl,
    C4_invalid_input_no_model_call badInputState idModel idScaler rfl rfl
      (Or.inl rfl)⟩

/-- C5: whenever the model or scaler is unavailable after start-up — the
asset files missing, or either external load raising — every scoring attempt
takes the early `Model not loaded!` return before any numeric work: no
`float()` conversion, no scaler transform and no model call happens. -/
theorem C5_assets_missing_blocks_scoring (filesExist : Bool)
    (loadModel : Option ReconstructionModel) (loadScaler : Option Scaler)
    (st : AppState) (hm : st.model = none) (hsc : st.scaler = none)
    (hfail : filesExist = false ∨ loadModel = none ∨ loadScaler = none) :
    (analyze_inputs (load_assets filesExist loadModel loadScaler st)).2.floatCalled
        = false ∧
      (analyze_inputs (load_assets filesExist loadModel loadScaler st)).2.scalerCalled
        = false ∧
      (analyze_inputs (load_assets filesExist loadModel loadScaler st)).2.modelCalled
        = false ∧
      (analyze_inputs (load_assets filesExist loadModel loadScaler st)).1.ui.lbl_result
        = "Model not loaded!" := by
  have hmiss : (load_assets filesExist loadModel loadScaler st).model = none ∨
      (load_assets filesExist loadModel loadScaler st).scaler = none := by
    rcases hfail with hfe | hlm | hls
    · subst hfe; left; simpa [load_assets] using hm
    · subst hlm
      cases filesExist <;> left <;> simpa [load_assets] using hm
    · subst hls
      cases filesExist
      · left; simpa [load_assets] using hm
      · cases loadModel with
        | none => left; simpa [load_assets] using hm
        | some mm => right; simpa [load_assets] using hsc
  have h2 := analyzeUI_missing (load_assets filesExist loadModel loadScaler st).model
    (load_assets filesExist loadModel loadScaler st).scaler hmiss
    (load_assets filesExist loadModel loadScaler st).txt_temp
    (load_assets filesExist loadModel loadScaler st).txt_hum
    (load_assets filesExist loadModel loadScaler st).txt_press
    (load_assets filesExist loadModel loadScaler st).txt_soil
    (load_assets filesExist loadModel loadScaler st).ui
  rw [analyze_trace_eq, analyze_ui_eq, h2]
  exact ⟨rfl, rfl, rfl, rfl⟩

/-- Witness for C5: the asset files are missing and nothing was loaded. -/
theorem C5_assets_missing_blocks_scoring_w :
    emptyState.model = none ∧ emptyState.scaler = none ∧
      ((false : Bool) = false ∨ (none : Option ReconstructionModel) = none ∨
        (none : Option Scaler) = none) ∧
      ((analyze_inputs (load_assets false none none emptyState)).2.floatCalled
          = false ∧
        (analyze_inputs (load_assets false none none emptyState)).2.scalerCalled
          = false ∧
        (analyze_inputs (load_assets false none none emptyState)).2.modelCalled
          = false ∧
        (analyze_inputs (load_assets false none none emptyState)).1.ui.lbl_result
          = "Model not loaded!") :=
  ⟨rfl, rfl, Or.inl rfl,
    C5_assets_missing_blocks_scoring false none none emptyState rfl rfl
      (Or.inl rfl)⟩

/-- C6: normalizing after repeating a reading across the `TIME_STEPS`
positions equals repeating the normalized reading, when the scaler is an
affine transform applied to each row independently. -/
theorem C6_normalize_repeat_commute (S : AffineScaler) (x : Row) :
    S.transform (np_repeat (n := TIME_STEPS) x) =
      np_repeat (S.transformRow x) := rfl

/-- C7: scoring is pure and deterministic.  A call never writes the loaded
model or scaler (nor the input fields), and on loaded assets with parsed
inputs the produced raw error, severity, classification text and progress
value depend only on the reading and the assets — two calls from different
prior widget states agree on all of them. -/
theorem C7_scoring_pure (st₁ st₂ : AppState) (m : ReconstructionModel)
    (sc : Scaler) (t h p s : ℚ)
    (hm₁ : st₁.model = some m) (hsc₁ : st₁.scaler = some sc)
    (ht₁ : st₁.txt_temp = some t) (hh₁ : st₁.txt_hum = some h)
    (hp₁ : st₁.txt_press = some p) (hs₁ : st₁.txt_soil = some s)
    (hm₂ : st₂.model = some m) (hsc₂ : st₂.scaler = some sc)
    (ht₂ : st₂.txt_temp = some t) (hh₂ : st₂.txt_hum = some h)
    (hp₂ : st₂.txt_press = some p) (hs₂ : st₂.txt_soil = some s) :
    (∀ st : AppState, (analyze_inputs st).1.model = st.model ∧
        (analyze_inputs st).1.scaler = st.scaler ∧
        (analyze_inputs st).1.txt_temp = st.txt_temp ∧
        (analyze_inputs st).1.txt_hum = st.txt_hum ∧
        (analyze_inputs st).1.txt_press = st.txt_press ∧
        (analyze_inputs st).1.txt_soil = st.txt_soil) ∧
      (analyze_inputs st₁).1.ui.lbl_loss = (analyze_inputs st₂).1.ui.lbl_loss ∧
      (analyze_inputs st₁).1.ui.lbl_score = (analyze_inputs st₂).1.ui.lbl_score ∧
      (analyze_inputs st₁).1.ui.lbl_result = (analyze_inputs st₂).1.ui.lbl_result ∧
      (analyze_inputs st₁).1.ui.progress_value =
        (analyze_inputs st₂).1.ui.progress_value := by
  refine ⟨fun st => ⟨rfl, rfl, rfl, rfl, rfl, rfl⟩, ?_, ?_, ?_, ?_⟩ <;>
    rw [analyze_ui_eq st₁, hm₁, hsc₁, ht₁, hh₁, hp₁, hs₁,
      analyze_ui_eq st₂, hm₂, hsc₂, ht₂, hh₂, hp₂, hs₂]
  · rw [analyzeUI_lbl_loss, analyzeUI_lbl_loss]
  · rw [analyzeUI_lbl_score, analyzeUI_lbl_score]
  · by_cases hgt : mae_of m sc t h p s > DEFAULT_THRESHOLD
    · rw [analyzeUI_result_pos m sc t h p s st₁.ui hgt,
        analyzeUI_result_pos m sc t h p s st₂.ui hgt]
    · rw [analyzeUI_result_neg m sc t h p s st₁.ui hgt,
        analyzeUI_result_neg m sc t h p s st₂.ui hgt]
  · by_cases hgt : mae_of m sc t h p s > DEFAULT_THRESHOLD
    · rw [analyzeUI_progress_pos m sc t h p s st₁.ui hgt,
        analyzeUI_progress_pos m sc t h p s st₂.ui hgt]
    · rw [analyzeUI_progress_neg m sc t h p s st₁.ui hgt,
        analyzeUI_progress_neg m sc t h p s st₂.ui hgt]

/-- Witness for C7: the same reading scored from the fresh test state and
from the state left by a previous bad-input attempt. -/
theorem C7_scoring_pure_w :
    testState.model = some idModel ∧
      (analyze_inputs badInputState).1.model = badInputState.model ∧
      ((∀ st : AppState, (analyze_inputs st).1.model = st.model ∧
          (analyze_inputs st).1.scaler = st.scaler ∧
          (analyze_inputs st).1.txt_temp = st.txt_temp ∧
          (analyze_inputs st).1.txt_hum = st.txt_hum ∧
          (analyze_inputs st).1.txt_press = st.txt_press ∧
          (analyze_inputs st).1.txt_soil = st.txt_soil) ∧
        (analyze_inputs testState).1.ui.lbl_loss =
          (analyze_inputs { testState with ui := (analyze_inputs badInputState).1.ui }).1.ui.lbl_loss ∧
        (analyze_inputs testState).1.ui.lbl_score =
          (analyze_inputs { testState with ui := (analyze_inputs badInputState).1.ui }).1.ui.lbl_score ∧
        (analyze_inputs testState).1.ui.lbl_result =
          (analyze_inputs { testState with ui := (analyze_inputs badInputState).1.ui }).1.ui.lbl_result ∧
        (analyze_inputs testState).1.ui.progress_value =
          (analyze_inputs { testState with ui := (analyze_inputs badInputState).1.ui }).1.ui.progress_value) :=
  ⟨rfl, rfl,
    C7_scoring_pure testState { testState with ui := (analyze_inputs badInputState).1.ui }
      idModel idScaler 25 50 1013 800
      rfl rfl rfl rfl rfl rfl rfl rfl rfl rfl rfl rfl⟩

/-- C9: after every successful analysis the progress-bar value lies in
`[0, 1]`; in the anomaly branch it equals `min (severity * 0.5) 1`, in the
normal branch the unclamped severity ratio, which is at most 1 there because
the raw error is at most the threshold. -/
theorem C9_progress_bar_in_unit_interval (st : AppState)
    (m : ReconstructionModel) (sc : Scaler) (t h p s : ℚ)
    (hm : st.model = some m) (hsc : st.scaler = some sc)
    (ht : st.txt_temp = some t) (hh : st.txt_hum = some h)
    (hp : st.txt_press = some p) (hs : st.txt_soil = some s) :
    0 ≤ (analyze_inputs st).1.ui.progress_value ∧
      (analyze_inputs st).1.ui.progress_value ≤ 1 ∧
      ((analyze_inputs st).1.ui.lbl_result = "ANOMALY DETECTED" →
        (analyze_inputs st).1.ui.progress_value =
          min ((analyze_inputs st).1.ui.lbl_loss / DEFAULT_THRESHOLD * (1 / 2)) 1) ∧
      ((analyze_inputs st).1.ui.lbl_result = "STATUS NORMAL" →
        (analyze_inputs st).1.ui.progress_value =
          (analyze_inputs st).1.ui.lbl_loss / DEFAULT_THRESHOLD) := by
  rw [analyze_ui_eq, hm, hsc, ht, hh, hp, hs, analyzeUI_lbl_loss]
  have hsp : 0 ≤ mae_of m sc t h p s / DEFAULT_THRESHOLD :=
    div_nonneg (mae_of_nonneg m sc t h p s) (le_of_lt threshold_pos)
  by_cases hgt : mae_of m sc t h p s > DEFAULT_THRESHOLD
  · rw [analyzeUI_progress_pos m sc t h p s st.ui hgt,
      analyzeUI_result_pos m sc t h p s st.ui hgt]
    refine ⟨le_min (by positivity) zero_le_one, min_le_right _ _, fun _ => rfl, ?_⟩
    intro habs
    exact absurd habs (by decide)
  · rw [analyzeUI_progress_neg m sc t h p s st.ui hgt,
      analyzeUI_result_neg m sc t h p s st.ui hgt]
    refine ⟨hsp, (div_le_one threshold_pos).mpr (not_lt.mp hgt), ?_, fun _ => rfl⟩
    intro habs
    exact absurd habs (by decide)

/-- Witness for C9 at the loaded test state. -/
theorem C9_progress_bar_in_unit_interval_w :
    testState.model = some idModel ∧ testState.scaler = some idScaler ∧
      testState.txt_temp = some 25 ∧ testState.txt_hum = some 50 ∧
      testState.txt_press = some 1013 ∧ testState.txt_soil = some 800 ∧
      (0 ≤ (analyze_inputs testState).1.ui.progress_value ∧
        (analyze_inputs testState).1.ui.progress_value ≤ 1 ∧
        ((analyze_inputs testState).1.ui.lbl_result = "ANOMALY DETECTED" →
          (analyze_inputs testState).1.ui.progress_value =
            min ((analyze_inputs testState).1.ui.lbl_loss / DEFAULT_THRESHOLD * (1 / 2)) 1) ∧
        ((analyze_inputs testState).1.ui.lbl_result = "STATUS NORMAL" →
          (analyze_inputs testState).1.ui.progress_value =
            (analyze_inputs testState).1.ui.lbl_loss / DEFAULT_THRESHOLD)) :=
  ⟨rfl, rfl, rfl, rfl, rfl, rfl,
    C9_progress_bar_in_unit_interval testState idModel idScaler 25 50 1013 800
      rfl rfl rfl rfl rfl rfl⟩

/-- C10: when a scoring attempt fails on non-numeric input, only the status
text (and its colour) is overwritten and the result card made visible; the
displayed raw error, severity percentage and progress-bar value (and its
colour) keep whatever the last successful analysis left there. -/
theorem C10_invalid_input_preserves_display (st : AppState)
    (m : ReconstructionModel) (sc : Scaler)
    (hm : st.model = some m) (hsc : st.scaler = some sc)
    (hbad : st.txt_temp = none ∨ st.txt_hum = none ∨
      st.txt_press = none ∨ st.txt_soil = none) :
    (analyze_inputs st).1.ui.lbl_loss = st.ui.lbl_loss ∧
      (analyze_inputs st).1.ui.lbl_score = st.ui.lbl_score ∧
      (analyze_inputs st).1.ui.progress_value = st.ui.progress_value ∧
      (analyze_inputs st).1.ui.progress_color = st.ui.progress_color ∧
      (analyze_inputs st).1.ui.lbl_result =
        "Invalid Input: Please enter numbers only." ∧
      (analyze_inputs st).1.ui.result_card_visible = true := by
  have hinv := analyzeUI_invalid m sc st.txt_temp st.txt_hum st.txt_press
    st.txt_soil hbad st.ui
  rw [analyze_ui_eq, hm, hsc, hinv]
  exact ⟨rfl, rfl, rfl, rfl, rfl, rfl⟩

/-- Witness for C10 at the state with a non-numeric temperature field. -/
theorem C10_invalid_input_preserves_display_w :
    badInputState.model = some idModel ∧ badInputState.scaler = some idScaler ∧
      (badInputState.txt_temp = none ∨ badInputState.txt_hum = none ∨
        badInputState.txt_press = none ∨ badInputState.txt_soil = none) ∧
      ((analyze_inputs badInputState).1.ui.lbl_loss = badInputState.ui.lbl_loss ∧
        (analyze_inputs badInputState).1.ui.lbl_score = badInputState.ui.lbl_score ∧
        (analyze_inputs badInputState).1.ui.progress_value =
          badInputState.ui.progress_value ∧
        (analyze_inputs badInputState).1.ui.progress_color =
          badInputState.ui.progress_color ∧
        (analyze_inputs badInputState).1.ui.lbl_result =
          "Invalid Input: Please enter numbers only." ∧
        (analyze_inputs badInputState).1.ui.result_card_visible = true) :=
  ⟨rfl, rfl, Or.inl rfl,
    C10_invalid_input_preserves_display badInputState idModel idScaler rfl rfl
      (Or.inl rfl)⟩

/-! Lemmas about the collector's string operations. -/

/-- `replaceAux` on the empty list is empty, for every fuel. -/
lemma replaceAux_nil (pat rep : List Char) (f : ℕ) :
    replaceAux pat rep f [] = [] := by
  cases f <;> rfl

/-- One unfolding step of `replaceAux`. -/
lemma replaceAux_cons (pat rep : List Char) (f : ℕ) (c : Char) (cs : List Char) :
    replaceAux pat rep (f + 1) (c :: cs) =
      if isPrefixOfL pat (c :: cs) then
        rep ++ replaceAux pat rep f (cs.drop (pat.length - 1))
      else
        c :: replaceAux pat rep f cs := rfl

/-- `replaceAux` does not depend on the fuel once it covers the list length. -/
lemma replaceAux_fuel (pat rep : List Char) :
    ∀ f₁ f₂ l, l.length ≤ f₁ → l.length ≤ f₂ →
      replaceAux pat rep f₁ l = replaceAux pat rep f₂ l := by
  intro f₁
  induction f₁ with
  | zero =>
    intro f₂ l h1 _
    have hl : l = [] := List.eq_nil_of_length_eq_zero (Nat.le_zero.mp h1)
    subst hl
    rw [replaceAux_nil, replaceAux_nil]
  | succ f ih =>
    intro f₂ l h1 h2
    cases l with
    | nil => rw [replaceAux_nil, replaceAux_nil]
    | cons c cs =>
      cases f₂ with
      | zero => simp at h2
      | succ g =>
        rw [replaceAux_cons, replaceAux_cons]
        have hf1 : cs.length ≤ f := by simp only [List.length_cons] at h1; omega
        have hf2 : cs.length ≤ g := by simp only [List.length_cons] at h2; omega
        have hd : (cs.drop (pat.length - 1)).length ≤ cs.length := by
          simp [List.length_drop]
        by_cases hpre : isPrefixOfL pat (c :: cs) = true
        · rw [if_pos hpre, if_pos hpre]
          exact congrArg _ (ih g _ (le_trans hd hf1) (le_trans hd hf2))
        · rw [if_neg hpre, if_neg hpre]
          exact congrArg _ (ih g cs hf1 hf2)

/-- Unfolding `replaceAll` at a matching position. -/
lemma replaceAll_cons_pos (pat rep : List Char) (c : Char) (cs : List Char)
    (h : isPrefixOfL pat (c :: cs) = true) :
    replaceAll pat rep (c :: cs) =
      rep ++ replaceAll pat rep (cs.drop (pat.length - 1)) := by
  unfold replaceAll
  rw [show (c :: cs).length = cs.length + 1 from rfl, replaceAux_cons, if_pos h]
  exact congrArg _
    (replaceAux_fuel pat rep cs.length _ _ (by simp [List.length_drop]) (le_refl _))

/-- Unfolding `replaceAll` at a non-matching position. -/
lemma replaceAll_cons_neg (pat rep : List Char) (c : Char) (cs : List Char)
    (h : ¬ isPrefixOfL pat (c :: cs) = true) :
    replaceAll pat rep (c :: cs) = c :: replaceAll pat rep cs := by
  unfold replaceAll
  rw [show (c :: cs).length = cs.length + 1 from rfl, replaceAux_cons, if_neg h]

/-- `startswith` as the existence of a suffix. -/
lemma isPrefixOfL_iff (p l : List Char) :
    isPrefixOfL p l = true ↔ ∃ t, l = p ++ t := by
  induction p generalizing l with
  | nil =>
    constructor
    · intro _; exact ⟨l, rfl⟩
    · intro _; rfl
  | cons a ps ih =>
    cases l with
    | nil =>
      constructor
      · intro hfalse; cases hfalse
      · rintro ⟨t, ht⟩; cases ht
    | cons c cs =>
      rw [show isPrefixOfL (a :: ps) (c :: cs) = (a == c && isPrefixOfL ps cs)
        from rfl, Bool.and_eq_true, beq_iff_eq, ih]
      constructor
      · rintro ⟨rfl, t, rfl⟩
        exact ⟨t, rfl⟩
      · rintro ⟨t, ht⟩
        injection ht with h1 h2
        exact ⟨h1.symm, t, h2⟩

/-- A list starts with itself followed by anything. -/
lemma isPrefixOfL_append_left (p t : List Char) :
    isPrefixOfL p (p ++ t) = true :=
  (isPrefixOfL_iff p (p ++ t)).mpr ⟨t, rfl⟩

/-- Dropping the length of the left part of an append. -/
lemma drop_len_append (l₁ l₂ : List Char) : (l₁ ++ l₂).drop l₁.length = l₂ := by
  induction l₁ with
  | nil => rfl
  | cons a l ih => rw [List.cons_append, List.length_cons, List.drop_succ_cons, ih]

/-- Replacing a single character by nothing is a filter. -/
lemma replaceAll_single (a : Char) (l : List Char) :
    replaceAll [a] [] l = l.filter (fun c => c != a) := by
  induction l with
  | nil => rfl
  | cons c cs ih =>
    by_cases hac : a = c
    · subst hac
      rw [replaceAll_cons_pos [a] [] a cs (by simp [isPrefixOfL])]
      simpa using ih
    · rw [replaceAll_cons_neg [a] [] c cs (by simp [isPrefixOfL, hac])]
      have hca : (c != a) = true := by
        simp only [bne_iff_ne, ne_eq]
        exact fun e => hac e.symm
      rw [List.filter_cons, if_pos hca, ih]

/-- A pattern whose head never occurs in the list replaces nothing. -/
lemma replaceAll_head_notMem (a : Char) (ps rep : List Char) :
    ∀ l : List Char, a ∉ l → replaceAll (a :: ps) rep l = l := by
  intro l
  induction l with
  | nil => intro _; rfl
  | cons c cs ih =>
    intro h
    have hac : ¬ a = c := fun e => h (by rw [e]; exact List.mem_cons_self c cs)
    have hpre : ¬ isPrefixOfL (a :: ps) (c :: cs) = true := by
      simp [isPrefixOfL, hac]
    rw [replaceAll_cons_neg _ _ _ _ hpre,
      ih (fun hm => h (List.mem_cons_of_mem c hm))]

/-- A comma-free pattern never matches at a comma. -/
lemma replaceAll_comma_cons (pat rep : List Char) (hp : pat ≠ [])
    (hc : ',' ∉ pat) (y : List Char) :
    replaceAll pat rep (',' :: y) = ',' :: replaceAll pat rep y := by
  have hpre : ¬ isPrefixOfL pat (',' :: y) = true := by
    intro hpt
    obtain ⟨t, ht⟩ := (isPrefixOfL_iff _ _).mp hpt
    cases pat with
    | nil => exact hp rfl
    | cons b bs =>
      injection ht with h1 _
      exact hc (by rw [h1]; exact List.mem_cons_self b bs)
  rw [replaceAll_cons_neg _ _ _ _ hpre]

/-- Replacement with a comma-free pattern distributes over the comma the
collector inserts between the timestamp and the line. -/
lemma replaceAll_append_comma (pat rep : List Char) (hp : pat ≠ [])
    (hc : ',' ∉ pat) :
    ∀ (k : ℕ) (x y : List Char), x.length ≤ k →
      replaceAll pat rep (x ++ ',' :: y) =
        replaceAll pat rep x ++ ',' :: replaceAll pat rep y := by
  intro k
  induction k with
  | zero =>
    intro x y hx
    have hxe : x = [] := List.eq_nil_of_length_eq_zero (Nat.le_zero.mp hx)
    subst hxe
    rw [List.nil_append, replaceAll_comma_cons pat rep hp hc y]
    rfl
  | succ k ih =>
    intro x y hx
    cases x with
    | nil =>
      rw [List.nil_append, replaceAll_comma_cons pat rep hp hc y]
      rfl
    | cons c xs =>
      simp only [List.cons_append]
      by_cases hm : isPrefixOfL pat (c :: (xs ++ ',' :: y)) = true
      · obtain ⟨t, ht⟩ := (isPrefixOfL_iff _ _).mp hm
        have ht' : (c :: xs) ++ ',' :: y = pat ++ t := by simpa using ht
        have hsplit : ∃ c', c :: xs = pat ++ c' := by
          rcases List.append_eq_append_iff.mp ht' with ⟨a', ha1, ha2⟩ | ⟨c', hc1, _⟩
          · cases a' with
            | nil => exact ⟨[], by simp [ha1]⟩
            | cons e es =>
              exfalso
              injection ha2 with h1 _
              apply hc
              rw [ha1]
              refine List.mem_append_right _ ?_
              rw [← h1]
              exact List.mem_cons_self ',' es
          · exact ⟨c', hc1⟩
        obtain ⟨c', hxc⟩ := hsplit
        obtain ⟨p0, ps, hpat⟩ := List.exists_cons_of_ne_nil hp
        subst hpat
        simp only [List.cons_append] at hxc
        injection hxc with hcp0 hxs
        subst hcp0
        subst hxs
        have hlen : c'.length ≤ k := by
          simp only [List.length_cons, List.length_append] at hx
          omega
        have hm2 : isPrefixOfL (c :: ps) (c :: (ps ++ c')) = true :=
          (isPrefixOfL_iff _ _).mpr ⟨c', by simp⟩
        rw [replaceAll_cons_pos _ rep _ _ hm, replaceAll_cons_pos _ rep _ _ hm2]
        have hd1 : ((ps ++ c') ++ ',' :: y).drop ((c :: ps).length - 1) =
            c' ++ ',' :: y := by
          simp only [List.length_cons, Nat.add_sub_cancel, List.append_assoc]
          exact drop_len_append ps (c' ++ ',' :: y)
        have hd2 : (ps ++ c').drop ((c :: ps).length - 1) = c' := by
          simp only [List.length_cons, Nat.add_sub_cancel]
          exact drop_len_append ps c'
        rw [hd1, hd2, ih c' y hlen, List.append_assoc]
      · have hm1 : ¬ isPrefixOfL pat (c :: xs) = true := by
          intro hpt
          apply hm
          obtain ⟨t, ht⟩ := (isPrefixOfL_iff _ _).mp hpt
          refine (isPrefixOfL_iff _ _).mpr ⟨t ++ ',' :: y, ?_⟩
          calc c :: (xs ++ ',' :: y) = (c :: xs) ++ ',' :: y := by simp
            _ = (pat ++ t) ++ ',' :: y := by rw [ht]
            _ = pat ++ (t ++ ',' :: y) := List.append_assoc _ _ _
        have hxs : xs.length ≤ k := by
          simp only [List.length_cons] at hx
          omega
        rw [replaceAll_cons_neg _ _ _ _ hm, replaceAll_cons_neg _ _ _ _ hm1,
          ih xs y hxs]
        rfl

/-- Distribution form at exactly the needed fuel. -/
lemma replaceAll_append_comma_all (pat rep x y : List Char) (hp : pat ≠ [])
    (hc : ',' ∉ pat) :
    replaceAll pat rep (x ++ ',' :: y) =
      replaceAll pat rep x ++ ',' :: replaceAll pat rep y :=
  replaceAll_append_comma pat rep hp hc x.length x y (le_refl _)

/-! C8 theorems. -/

/-- C8 fails as stated: at timestamp `2024-01-01 12:00:00` and serial line
`[Logs] a b\n` a record is appended, but it is
`2024-01-0112:00:00,ab` — the `replace(" ", "")` also deletes the space
inside the timestamp and the interior space of the payload — not the
claimed `timestamp , stripped payload` record. -/
theorem C8_collector_record_counterexample :
    (processLine ("2024-01-01 12:00:00".data) ("[Logs] a b\n".data)).isSome = true ∧
    processLine ("2024-01-01 12:00:00".data) ("[Logs] a b\n".data) =
      some ("2024-01-0112:00:00,ab".data) ∧
    processLine ("2024-01-01 12:00:00".data) ("[Logs] a b\n".data) ≠
      some (claimedRecordC8 ("2024-01-01 12:00:00".data) ("[Logs] a b\n".data)) := by
  decide

/-- C8 amended: a record is appended iff the line begins with the marker
`[Logs] `; the record is the timestamp and the stripped line joined by a
comma with every space character removed throughout — including the space
inside the timestamp — and then every occurrence of `[Logs]` removed
(which removes the leading marker and any later occurrence as well).  Since
the timestamp contains no `[`, the record equals the timestamp without its
spaces, a comma, then the stripped line without spaces and with every
`[Logs]` occurrence removed. -/
theorem C8_collector_record_amended (ts payload : List Char) (hts : '[' ∉ ts) :
    processLine ts (MARKER ++ payload) =
      some (ts.filter (fun c => c != ' ') ++ ',' ::
        replaceAll LOGS []
          ((pyStrip (MARKER ++ payload)).filter (fun c => c != ' '))) ∧
    ∀ line : List Char, isPrefixOfL MARKER line = false →
      processLine ts line = none := by
  constructor
  · have hstep : processLine ts (MARKER ++ payload) =
        some (replaceAll LOGS [] (replaceAll [' '] []
          (ts ++ ',' :: pyStrip (MARKER ++ payload)))) := by
      unfold processLine
      rw [if_pos (isPrefixOfL_append_left MARKER payload)]
    rw [hstep]
    congr 1
    rw [replaceAll_single ' ' (ts ++ ',' :: pyStrip (MARKER ++ payload)),
      List.filter_append, List.filter_cons, if_pos (by decide : ((',' != ' ') = true)),
      replaceAll_append_comma_all LOGS [] _ _ (by decide) (by decide)]
    have hnm : '[' ∉ ts.filter (fun c => c != ' ') :=
      fun hmem => hts (List.mem_of_mem_filter hmem)
    rw [show LOGS = '[' :: ['L', 'o', 'g', 's', ']'] from rfl,
      replaceAll_head_notMem '[' ['L', 'o', 'g', 's', ']'] [] _ hnm]
  · intro line hline
    unfold processLine
    rw [if_neg (by simp [hline])]

/-- Witness for the amended C8 at a concrete timestamp and payload. -/
theorem C8_collector_record_amended_w :
    ('[' ∉ "2024-01-01 12:00:00".data) ∧
      (processLine ("2024-01-01 12:00:00".data) (MARKER ++ "temp: 25".data) =
        some (("2024-01-01 12:00:00".data).filter (fun c => c != ' ') ++ ',' ::
          replaceAll LOGS []
            ((pyStrip (MARKER ++ "temp: 25".data)).filter (fun c => c != ' '))) ∧
       ∀ line : List Char, isPrefixOfL MARKER line = false →
         processLine ("2024-01-01 12:00:00".data) line = none) :=
  ⟨by decide,
    C8_collector_record_amended ("2024-01-01 12:00:00".data) ("temp: 25".data)
      (by decide)⟩

end IoTDiag
